import Mathlib

/-!
Shallow embedding of the windbreaker copy-trading bot (Python sources under
`src/`) for checking the natural-language specification against the code.

Conventions of the embedding:
* Python `float` money amounts are modelled as `ℚ`; lamport / token base-unit
  amounts are `ℤ` as in the source (Python ints).
* Python `dict`s are modelled as insertion-ordered association lists:
  assignment to an existing key replaces the value in place, assignment to a
  fresh key appends.  Python `set` iteration order is unspecified; where the
  source iterates over a set union of dict keys we fix insertion order, and
  every theorem that depends on a concrete input holds for any order.
* Fallible Python code (an exception caught by a surrounding `try`) is
  modelled with `Except Unit`.
-/

/-- Python truthiness of an optional string: `None` and `""` are falsy. -/
def pyTruthy : Option String → Bool
  | none => false
  | some s => s ≠ ""

/-- Python dict assignment `d[k] = v`: replace in place if the key exists
(keeping its insertion position), otherwise append. -/
def pySet {α β : Type} [DecidableEq α] : List (α × β) → α → β → List (α × β)
  | [], k, v => [(k, v)]
  | (k', v') :: rest, k, v =>
      if k' = k then (k, v) :: rest else (k', v') :: pySet rest k v

/-- Python dict lookup `d.get(k)`. -/
def pyGet? {α β : Type} [DecidableEq α] : List (α × β) → α → Option β
  | [], _ => none
  | (k', v) :: rest, k => if k' = k then some v else pyGet? rest k

/-- Python dict lookup with default, `d.get(k, dflt)`. -/
def pyGetD {α β : Type} [DecidableEq α] (d : List (α × β)) (k : α) (dflt : β) : β :=
  (pyGet? d k).getD dflt

/-- Python `del d[k]` (no-op when the key is absent; callers below only
delete keys they have just looked up). -/
def pyDel {α β : Type} [DecidableEq α] : List (α × β) → α → List (α × β)
  | [], _ => []
  | (k', v) :: rest, k => if k' = k then rest else (k', v) :: pyDel rest k

/-- Keys of a Python dict in insertion order. -/
def dictKeys {α β : Type} (d : List (α × β)) : List α := d.map Prod.fst

/-- Insertion-ordered de-duplication, the deterministic stand-in for iterating
a Python `set` built from dict keys. -/
def orderedKeys {α : Type} [DecidableEq α] (l : List α) : List α :=
  l.foldl (fun acc x => if x ∈ acc then acc else acc ++ [x]) []

/-! ## Constants from `tx_parser.py` -/

def PUMP_FUN_PROGRAM : String := "6EF8rrecthR5Dkzon8Nwu78hRvfCKubJ14M5uBEwF6P"
def JUPITER_V6_PROGRAM : String := "JUP6LkbZbjS1jKKwapdHNy74zcZ3tLUZoi5QNyVTaV4"
def RAYDIUM_AMM_PROGRAM : String := "675kPX9MHTjS2zt1qfr1NYHuzeLXfQM9H24wFSUt1Mp8"
def RAYDIUM_CLMM_PROGRAM : String := "CAMMCzo5YL8w4VFF8KVHrK22GGUsp5VTaW7grrKgrWqK"
def NATIVE_SOL_MINT : String := "So11111111111111111111111111111111111111112"
def USDC_MINT : String := "EPjFWdd5AufqSSqeM2qN1xzybapC8G4wEGGkZwyTDt1v"
def USDT_MINT : String := "Es9vMFrzaCERmJfrF4H2FYD4KCoNkY11McCe8BenwNYB"

/-- Membership in the tuple `(NATIVE_SOL_MINT, USDC_MINT, USDT_MINT)`. -/
def isNativeOrStable (m : String) : Bool :=
  m == NATIVE_SOL_MINT || m == USDC_MINT || m == USDT_MINT

/-! ## Raw-transaction data model (`tx_data` as consumed by the parser) -/

/-- One entry of `meta.preTokenBalances` / `meta.postTokenBalances`.
`amount` is `int(b.get("uiTokenAmount", {}).get("amount", "0"))`. -/
structure TokenBalance where
  owner : Option String
  mint : Option String
  amount : Int
deriving DecidableEq, Repr

/-- The `meta` object of a raw transaction.  `err` is `meta.get("err")`:
`none` models JSON null / absent, `some` any non-null error value. -/
structure TxMeta where
  err : Option String
  preBalances : List Int
  postBalances : List Int
  preTokenBalances : List TokenBalance
  postTokenBalances : List TokenBalance
  loadedWritable : List String
  loadedReadonly : List String
deriving DecidableEq, Repr

/-- The `transaction.message` object.  Each entry of `accountKeys` is the
pubkey string (the source accepts either a bare string or a
`{"pubkey": ...}` object and extracts the same string). -/
structure TxMessage where
  accountKeys : List String
deriving DecidableEq, Repr

/-- A raw transaction.  `signatures` is `transaction.get("signatures")`:
`none` models the key being absent, `some []` a present-but-empty list. -/
structure RawTx where
  message : TxMessage
  meta : TxMeta
  signatures : Option (List String)
deriving DecidableEq, Repr

inductive SwapType where
  | buy
  | sell
  | unknown
deriving DecidableEq, Repr

/-- Result record of the parser (`ParsedSwap` dataclass). -/
structure ParsedSwap where
  swap_type : SwapType
  token_mint : String
  token_symbol : Option String
  sol_amount : Int
  token_amount : Int
  dex : String
  signature : String
  wallet : String
deriving DecidableEq, Repr

/-- Property `ParsedSwap.sol_value`: SOL amount as a number. -/
def ParsedSwap.sol_value (p : ParsedSwap) : ℚ := (p.sol_amount : ℚ) / 1000000000

/-- Property `ParsedSwap.is_buy`. -/
def ParsedSwap.is_buy (p : ParsedSwap) : Bool := p.swap_type = SwapType.buy

/-- Property `ParsedSwap.is_sell`. -/
def ParsedSwap.is_sell (p : ParsedSwap) : Bool := p.swap_type = SwapType.sell

/-! ## `tx_parser.py` — the Swap Detector -/

/-- Embedding of `_get_account_keys`: static account keys plus loaded addresses. -/
def getAccountKeys (msg : TxMessage) (meta : TxMeta) : List String :=
  msg.accountKeys ++ meta.loadedWritable ++ meta.loadedReadonly

/-- Wallet-owned token balances (`_parse_from_balance_changes`):
`{b["mint"]: amount for b in balances if b.get("owner") == wallet}`,
built by successive dict assignment. -/
def buildOwnedBalances (wallet : String) (bs : List TokenBalance) :
    List (Option String × Int) :=
  bs.foldl (fun d b => if b.owner = some wallet then pySet d b.mint b.amount else d) []

/-- All-accounts token balances with native/stable mints filtered out
(`_parse_pump_fun`): `if mint and mint not in (NATIVE, USDC, USDT)`. -/
def buildAllBalances (bs : List TokenBalance) : List (Option String × Int) :=
  bs.foldl
    (fun d b =>
      if pyTruthy b.mint && !(isNativeOrStable (b.mint.getD "")) then
        pySet d b.mint b.amount
      else d)
    []

/-- The token-change loop shared by both parsers: scan the mint set in order,
skip native/stable mints (a `None` mint is not skipped, exactly as Python's
`mint in (NATIVE, USDC, USDT)` is false for `None`), and return the first
mint whose balance delta is non-zero, with that delta. -/
def findChangedMint (pre post : List (Option String × Int)) :
    List (Option String) → Option (Option String × Int)
  | [] => none
  | m :: rest =>
      if (match m with | some s => isNativeOrStable s | none => false) then
        findChangedMint pre post rest
      else
        let change := pyGetD post m 0 - pyGetD pre m 0
        if change ≠ 0 then some (m, change) else findChangedMint pre post rest

/-- Mint iteration order for `_parse_pump_fun`'s
`set(pre_balances_all) | set(post_balances_all)`. -/
def pumpAllMints (tx : RawTx) : List (Option String) :=
  orderedKeys (dictKeys (buildAllBalances tx.meta.preTokenBalances) ++
    dictKeys (buildAllBalances tx.meta.postTokenBalances))

/-- Mint iteration order for `_parse_from_balance_changes`'s
`set(pre_balances) | set(post_balances)`. -/
def ownedAllMints (tx : RawTx) (wallet : String) : List (Option String) :=
  orderedKeys (dictKeys (buildOwnedBalances wallet tx.meta.preTokenBalances) ++
    dictKeys (buildOwnedBalances wallet tx.meta.postTokenBalances))

/-- SOL balance delta in `_parse_pump_fun`: index of the wallet in the
account keys, else index 0 if any key exists; each of the two balance reads
is individually bounds-guarded in the source. -/
def pumpSolChange (tx : RawTx) (wallet : String) : Int :=
  let keys := getAccountKeys tx.message tx.meta
  let idx : Option Nat :=
    if wallet ∈ keys then some (keys.indexOf wallet)
    else if 0 < keys.length then some 0 else none
  match idx with
  | none => 0
  | some i =>
      (if i < tx.meta.postBalances.length then tx.meta.postBalances.getD i 0 else 0) -
        (if i < tx.meta.preBalances.length then tx.meta.preBalances.getD i 0 else 0)

/-- SOL balance delta in `_parse_from_balance_changes`.  The source guards
`wallet_index < len(preBalances)` but then indexes `postBalances` unguarded;
a too-short `postBalances` raises `IndexError`, which the top-level `try` in
`parse_transaction` turns into `None`.  We model the raise as `.error ()`. -/
def fallbackSolChange (tx : RawTx) (wallet : String) : Except Unit Int :=
  let keys := getAccountKeys tx.message tx.meta
  if wallet ∈ keys then
    let i := keys.indexOf wallet
    if i < tx.meta.preBalances.length then
      if i < tx.meta.postBalances.length then
        .ok (tx.meta.postBalances.getD i 0 - tx.meta.preBalances.getD i 0)
      else .error ()
    else .ok 0
  else .ok 0

/-- Signature extraction in `_parse_pump_fun`:
`tx_data.get("transaction", {}).get("signatures", [""])[0]`.  An absent key
defaults to `[""]` (giving `""`); a present-but-empty list raises
`IndexError` (caught upstream as `None`). -/
def pumpSignature : Option (List String) → Except Unit String
  | none => .ok ""
  | some [] => .error ()
  | some (s :: _) => .ok s

/-- Signature extraction in `_parse_from_balance_changes`:
`sigs[0] if sigs else ""`. -/
def fallbackSignature : Option (List String) → String
  | none => ""
  | some [] => ""
  | some (s :: _) => s

/-- Embedding of `_parse_pump_fun`. -/
def parsePumpFun (min_sol_value : ℚ) (tx : RawTx) (wallet : String)
    (account_keys : List String) : Except Unit (Option ParsedSwap) :=
  if PUMP_FUN_PROGRAM ∈ account_keys then
    match findChangedMint (buildAllBalances tx.meta.preTokenBalances)
        (buildAllBalances tx.meta.postTokenBalances) (pumpAllMints tx) with
    | none => .ok none
    | some (token_mint, token_change) =>
        if pyTruthy token_mint then
          if token_change > 0 ∧ pumpSolChange tx wallet < 0 then
            if ((pumpSolChange tx wallet).natAbs : ℚ) / 1000000000 < min_sol_value then
              .ok none
            else
              match pumpSignature tx.signatures with
              | .error e => .error e
              | .ok sig =>
                  .ok (some ⟨SwapType.buy, token_mint.getD "", none,
                    |pumpSolChange tx wallet|, |token_change|, "pump.fun", sig, wallet⟩)
          else if token_change < 0 ∧ pumpSolChange tx wallet > 0 then
            if ((pumpSolChange tx wallet).natAbs : ℚ) / 1000000000 < min_sol_value then
              .ok none
            else
              match pumpSignature tx.signatures with
              | .error e => .error e
              | .ok sig =>
                  .ok (some ⟨SwapType.sell, token_mint.getD "", none,
                    |pumpSolChange tx wallet|, |token_change|, "pump.fun", sig, wallet⟩)
          else .ok none
        else .ok none
  else .ok none

/-- Embedding of `_parse_from_balance_changes`.  The `dex` argument defaults to
`"unknown"` at the one direct call site. -/
def parseFromBalanceChanges (min_sol_value : ℚ) (tx : RawTx) (wallet : String)
    (dex : String) : Except Unit (Option ParsedSwap) :=
  match fallbackSolChange tx wallet with
  | .error e => .error e
  | .ok sol_change =>
      match findChangedMint (buildOwnedBalances wallet tx.meta.preTokenBalances)
          (buildOwnedBalances wallet tx.meta.postTokenBalances)
          (ownedAllMints tx wallet) with
      | none => .ok none
      | some (token_mint, token_change) =>
          if pyTruthy token_mint then
            if token_change > 0 ∧ sol_change < 0 then
              if (sol_change.natAbs : ℚ) / 1000000000 < min_sol_value then .ok none
              else
                .ok (some ⟨SwapType.buy, token_mint.getD "", none, |sol_change|,
                  |token_change|, dex, fallbackSignature tx.signatures, wallet⟩)
            else if token_change < 0 ∧ sol_change > 0 then
              if (sol_change.natAbs : ℚ) / 1000000000 < min_sol_value then .ok none
              else
                .ok (some ⟨SwapType.sell, token_mint.getD "", none, |sol_change|,
                  |token_change|, dex, fallbackSignature tx.signatures, wallet⟩)
            else .ok none
          else .ok none

/-- Embedding of `_parse_jupiter`: delegate to the balance-change parser when the Jupiter
program is referenced. -/
def parseJupiter (min_sol_value : ℚ) (tx : RawTx) (wallet : String)
    (account_keys : List String) : Except Unit (Option ParsedSwap) :=
  if JUPITER_V6_PROGRAM ∈ account_keys then
    parseFromBalanceChanges min_sol_value tx wallet "jupiter"
  else .ok none

/-- Embedding of `_parse_raydium`. -/
def parseRaydium (min_sol_value : ℚ) (tx : RawTx) (wallet : String)
    (account_keys : List String) : Except Unit (Option ParsedSwap) :=
  if RAYDIUM_AMM_PROGRAM ∈ account_keys ∨ RAYDIUM_CLMM_PROGRAM ∈ account_keys then
    parseFromBalanceChanges min_sol_value tx wallet "raydium"
  else .ok none

/-- Body of `parse_transaction` inside its `try`: failed transactions are
dropped first, then the venue-specific paths are tried in order with the
generic balance-delta path as fallback.  The `account_keys` value computed
once in the source is written out at each use. -/
def parseTransactionExc (min_sol_value : ℚ) (tx : RawTx) (wallet : String) :
    Except Unit (Option ParsedSwap) :=
  if tx.meta.err ≠ none then .ok none
  else
    match parsePumpFun min_sol_value tx wallet (getAccountKeys tx.message tx.meta) with
    | .error e => .error e
    | .ok (some s) => .ok (some s)
    | .ok none =>
        match parseJupiter min_sol_value tx wallet (getAccountKeys tx.message tx.meta) with
        | .error e => .error e
        | .ok (some s) => .ok (some s)
        | .ok none =>
            match parseRaydium min_sol_value tx wallet (getAccountKeys tx.message tx.meta) with
            | .error e => .error e
            | .ok (some s) => .ok (some s)
            | .ok none => parseFromBalanceChanges min_sol_value tx wallet "unknown"

/-- Embedding of `parse_transaction`: any exception inside (modelled `.error`) is caught
and turned into `None`. -/
def parseTransaction (min_sol_value : ℚ) (tx : RawTx) (wallet : String) :
    Option ParsedSwap :=
  match parseTransactionExc min_sol_value tx wallet with
  | .error _ => none
  | .ok o => o

/-- Net per-mint delta of the wallet-owned token balances. -/
def ownedDelta (tx : RawTx) (wallet : String) (m : Option String) : Int :=
  pyGetD (buildOwnedBalances wallet tx.meta.postTokenBalances) m 0 -
    pyGetD (buildOwnedBalances wallet tx.meta.preTokenBalances) m 0

/-- Distinct non-native, non-stable tokens whose wallet-owned balance delta
is non-zero (the notion quantified over in the multi-token claim). -/
def changedOwnedMints (tx : RawTx) (wallet : String) : List (Option String) :=
  (ownedAllMints tx wallet).filter
    (fun m => pyTruthy m && !(isNativeOrStable (m.getD "")) && ownedDelta tx wallet m != 0)

/-! ## `position_manager.py` — the Position Ledger -/

inductive ExitReason where
  | take_profit
  | stop_loss
  | time_limit
  | manual
  | rug_detected
  | abandoned
  | copied_sell
deriving DecidableEq, Repr

/-- The `Position` dataclass.  `entry_time` and `last_price_check` are clock
readings in seconds; the clock (`datetime.utcnow()` / `time.time()`) is
passed explicitly where the source reads it. -/
structure Position where
  token_mint : String
  token_symbol : Option String
  entry_sol : ℚ
  token_amount : Int
  entry_time : ℚ
  entry_signature : String
  copied_from : String
  current_value_sol : ℚ
  last_price_check : Option ℚ
  highest_value_sol : ℚ
deriving DecidableEq, Repr

/-- Property `Position.age_minutes` at clock reading `now`. -/
def Position.age_minutes (now : ℚ) (p : Position) : ℚ := (now - p.entry_time) / 60

/-- Property `Position.pnl_percent`. -/
def Position.pnl_percent (p : Position) : ℚ :=
  if p.entry_sol = 0 then 0
  else (p.current_value_sol - p.entry_sol) / p.entry_sol * 100

/-- Property `Position.is_profitable`. -/
def Position.is_profitable (p : Position) : Bool :=
  p.current_value_sol > p.entry_sol

/-- The `SellResult` dataclass. -/
structure SellResult where
  success : Bool
  signature : Option String
  sol_received : ℚ
  reason : ExitReason
  error : Option String
deriving DecidableEq, Repr

/-- Tunable thresholds of `PositionManager.__init__`. -/
structure ExitConfig where
  max_positions : ℕ
  take_profit_pct : ℚ
  stop_loss_pct : ℚ
  time_limit_minutes : ℚ
  trailing_stop_pct : ℚ
  rug_abandon_sol : ℚ
deriving DecidableEq, Repr

/-- Type of `PositionManager.positions`, the open-position dict keyed by mint. -/
abbrev Positions := List (String × Position)

/-- Embedding of `can_open_position`. -/
def canOpenPosition (positions : Positions) (max_positions : ℕ) : Bool :=
  positions.length < max_positions

/-- Embedding of `has_position`. -/
def hasPosition (positions : Positions) (token_mint : String) : Bool :=
  (pyGet? positions token_mint).isSome

/-- Embedding of `add_position`: build a fresh `Position` (current and highest value
initialised to the entry) and assign it into the dict, replacing any
position already stored under the same mint. -/
def addPosition (positions : Positions) (token_mint : String) (entry_sol : ℚ)
    (token_amount : Int) (now : ℚ) (entry_signature : String)
    (copied_from : String) (token_symbol : Option String) : Positions × Position :=
  let position : Position :=
    ⟨token_mint, token_symbol, entry_sol, token_amount, now, entry_signature,
      copied_from, entry_sol, none, entry_sol⟩
  (pySet positions token_mint position, position)

/-- Embedding of `_should_exit`: the fixed-priority exit evaluation (abandon, take
profit, time limit, trailing stop; first match wins). -/
def shouldExit (cfg : ExitConfig) (now : ℚ) (position : Position) :
    Option ExitReason :=
  let pnl := position.pnl_percent
  if position.current_value_sol < cfg.rug_abandon_sol then some ExitReason.abandoned
  else if cfg.take_profit_pct > 0 ∧ pnl ≥ cfg.take_profit_pct then
    some ExitReason.take_profit
  else if cfg.time_limit_minutes > 0 ∧ position.age_minutes now ≥ cfg.time_limit_minutes then
    some ExitReason.time_limit
  else if cfg.trailing_stop_pct > 0 ∧ position.highest_value_sol > position.entry_sol then
    let drop_from_high := (position.current_value_sol - position.highest_value_sol) /
      position.highest_value_sol * 100
    if drop_from_high ≤ -cfg.trailing_stop_pct then some ExitReason.stop_loss else none
  else none

/-- Embedding of `_sell_position`.  The result triple is (new position dict, returned
`SellResult`, whether an external sell was attempted).  The external
`_execute_sell` outcome is an input, since it depends on network calls; the
abandoned branch never consults it.  Statistics counters are omitted. -/
def sellPosition (positions : Positions) (token_mint : String)
    (reason : ExitReason) (execResult : SellResult) :
    Positions × SellResult × Bool :=
  match pyGet? positions token_mint with
  | none => (positions, ⟨false, none, 0, ExitReason.manual, some "position_not_found"⟩, false)
  | some _ =>
      if reason = ExitReason.abandoned then
        (pyDel positions token_mint,
          ⟨true, none, 0, ExitReason.abandoned, none⟩, false)
      else
        if execResult.success then
          (pyDel positions token_mint, { execResult with reason := reason }, true)
        else
          (positions, { execResult with reason := reason }, true)

/-! ## `copy_trader.py` — the Copy-Trade Decision Engine -/

/-- The `CopyTradeResult` dataclass (the `original_swap` back-reference is
omitted; it plays no role in any claim). -/
structure CopyTradeResult where
  success : Bool
  signature : Option String
  error : Option String
  our_sol_amount : Int
  mock : Bool
deriving DecidableEq, Repr

/-- Constant `self.sell_cooldown_seconds = 60` (set in `CopyTrader.__init__`). -/
def sellCooldownSeconds : ℚ := 60

/-- Settings of `CopyTrader` read inside `_should_copy` / `_execute_copy`. -/
structure CopyConfig where
  max_positions : ℕ
  min_sol_per_trade : ℚ
  max_sol_per_trade : ℚ
  copy_sells : Bool
  copy_percentage : ℚ
  copy_proportional : Bool
  fee_reserve : ℚ
  exit_fee_reserve : ℚ
deriving DecidableEq, Repr

/-- Structured skip reasons produced by `_should_copy` (the source returns
formatted strings; the constructor identifies which branch fired). -/
inductive SkipReason where
  | sell_cooldown_active
  | max_positions_reached
  | sell_disabled
  | below_min_sol
  | recently_copied
deriving DecidableEq, Repr

/-- Embedding of `_should_copy`.  `trader_sold_cooldown` is the mint-to-timestamp dict;
`positions?` is `some` of the position dict when a `PositionManager` exists
(live mode) and `none` in mock mode.  Returns the skip reason (`none` means
copy) together with the possibly-mutated cooldown dict (an expired entry is
deleted in passing). -/
def shouldCopy (cfg : CopyConfig) (trader_sold_cooldown : List (String × ℚ))
    (positions? : Option Positions) (recent_copies : List String) (now : ℚ)
    (swap : ParsedSwap) : Option SkipReason × List (String × ℚ) :=
  let step1 : Option SkipReason × List (String × ℚ) :=
    if swap.is_buy then
      match pyGet? trader_sold_cooldown swap.token_mint with
      | some t0 =>
          if now - t0 < sellCooldownSeconds then
            (some SkipReason.sell_cooldown_active, trader_sold_cooldown)
          else (none, pyDel trader_sold_cooldown swap.token_mint)
      | none => (none, trader_sold_cooldown)
    else (none, trader_sold_cooldown)
  let slot_blocked : Bool :=
    match positions? with
    | some positions =>
        !hasPosition positions swap.token_mint &&
          !canOpenPosition positions cfg.max_positions
    | none => false
  match step1 with
  | (some r, cd) => (some r, cd)
  | (none, cd) =>
      if swap.is_buy ∧ slot_blocked then
        (some SkipReason.max_positions_reached, cd)
      else if swap.is_sell ∧ ¬ cfg.copy_sells then
        (some SkipReason.sell_disabled, cd)
      else if swap.is_buy ∧ swap.sol_value < cfg.min_sol_per_trade then
        (some SkipReason.below_min_sol, cd)
      else if swap.is_buy ∧ swap.token_mint ∈ recent_copies then
        (some SkipReason.recently_copied, cd)
      else (none, cd)

/-- The max-positions gate at the head of `_execute_copy`'s buy path
(lines 776–782): reject with `max_positions_reached` whenever the current
open-position count has reached the limit, whether or not the bought token
is already held. -/
def executeCopyMaxPositionsGate (current_positions max_positions : ℕ) :
    Option String :=
  if current_positions ≥ max_positions then some "max_positions_reached" else none

/-- Open-position count used by `_execute_copy` in live mode. -/
def currentPositionsLive (positions : Positions) : ℕ := positions.length

/-- Open-position count used by `_execute_copy` in mock mode: entries of
`mock_token_positions` holding a positive token amount. -/
def currentPositionsMock (mock_token_positions : List (String × Int)) : ℕ :=
  (mock_token_positions.filter (fun p => p.2 > 0)).length

/-- The gated position registration of `_execute_copy`'s live buy path:
the max-positions gate followed by `add_position`.  `none` models the
rejected `CopyTradeResult`. -/
def gatedAddPosition (positions : Positions) (max_positions : ℕ)
    (token_mint : String) (entry_sol : ℚ) (token_amount : Int) (now : ℚ)
    (entry_signature : String) (copied_from : String)
    (token_symbol : Option String) : Option Positions :=
  match executeCopyMaxPositionsGate (currentPositionsLive positions) max_positions with
  | some _ => none
  | none =>
      some (addPosition positions token_mint entry_sol token_amount now
        entry_signature copied_from token_symbol).1

/-- Embedding of `their_percentage` in `_execute_copy`'s proportional sizing (default
fraction `0.1` when the cached trader balance is not positive). -/
def theirPercentage (sol_value trader_total : ℚ) : ℚ :=
  if trader_total > 0 then sol_value / trader_total else 1 / 10

/-- Embedding of `min_percentage`: the sizing floor. -/
def minPercentage (min_sol_per_trade available_sol : ℚ) : ℚ :=
  if available_sol > 0 then max (min_sol_per_trade / available_sol) (15 / 100)
  else 15 / 100

/-- Value `effective_percentage = max(their_percentage, min_percentage)`. -/
def effectivePercentage (sol_value trader_total min_sol_per_trade available_sol : ℚ) : ℚ :=
  max (theirPercentage sol_value trader_total)
    (minPercentage min_sol_per_trade available_sol)

/-- The proportional-mode trade size (`trade_sol` as computed at lines
817–821, before the 4-decimal rounding and the minimum bump):
`min(available × effective, available × 0.5, perTradeCap)`; Python's
ternary `min` folds from the left. -/
def proportionalTradeSol (available_sol sol_value trader_total
    min_sol_per_trade max_sol_per_trade : ℚ) : ℚ :=
  min (min (available_sol * effectivePercentage sol_value trader_total
      min_sol_per_trade available_sol)
    (available_sol * (1 / 2))) max_sol_per_trade

/-- The fixed-mode trade size. -/
def fixedTradeSol (available_sol copy_percentage max_sol_per_trade sol_value : ℚ) : ℚ :=
  min (min (available_sol * copy_percentage) max_sol_per_trade) (sol_value * 2)

/-- Truncation toward zero, Python's `int()` on a float. -/
def pyInt (q : ℚ) : Int := if q ≥ 0 then ⌊q⌋ else -⌊-q⌋

/-- Round half to even at 4 decimal places, Python's `round(x, 4)` (applied
at line 840, between the sizing formula and the minimum bump). -/
def round4 (q : ℚ) : ℚ :=
  let x := q * 10000
  let f : ℤ := ⌊x⌋
  let n : ℤ :=
    if x - f < 1 / 2 then f
    else if x - f > 1 / 2 then f + 1
    else if f % 2 = 0 then f else f + 1
  (n : ℚ) / 10000

/-- The minimum bump after sizing: a result below the configured minimum is
raised to the minimum when affordable, otherwise the buy is rejected. -/
def bumpToMinimum (trade_sol min_sol_per_trade available_sol : ℚ) : Option ℚ :=
  if trade_sol < min_sol_per_trade then
    if available_sol ≥ min_sol_per_trade then some min_sol_per_trade else none
  else some trade_sol

/-! ## Mock-trading state (`copy_trader.py`, simulation mode) -/

/-- One entry of `mock_trades_history`.  The source stores a dict; buys
write `entry_sol`/`pnl` as absent, sells as present.  The wall-clock ISO
string is modelled by the numeric clock reading. -/
structure TradeRecord where
  trade_type : String
  token : String
  full_mint : String
  sol : ℚ
  tokens : Int
  entry_sol : Option ℚ
  pnl : Option ℚ
  balance_after : ℚ
  timestamp : ℚ
deriving DecidableEq, Repr

/-- The in-memory simulation state of `CopyTrader` in mock mode. -/
structure MockState where
  mock_balance : ℚ
  mock_starting_balance : ℚ
  mock_token_positions : List (String × Int)
  mock_position_entry_time : List (String × ℚ)
  mock_position_entry_sol : List (String × ℚ)
  mock_trades_history : List TradeRecord
deriving DecidableEq, Repr

/-- Token-receipt estimate in `_simulate_mock_buy`: extrapolate from the
signal's own swap ratio, falling back to one million tokens per SOL. -/
def mockEstimatedTokens (swap : ParsedSwap) (trade_sol : ℚ) : Int :=
  if swap.sol_value > 0 ∧ swap.token_amount > 0 then
    pyInt (trade_sol / swap.sol_value * (swap.token_amount : ℚ))
  else pyInt (trade_sol * 1000000)

/-- Embedding of `_simulate_mock_buy`: deduct the SOL, add the estimated tokens, record
entry time and SOL for a brand-new position or add the SOL to the entry of
an existing one (averaging in), and append a history record. -/
def simulateMockBuy (st : MockState) (swap : ParsedSwap) (trade_sol : ℚ)
    (now : ℚ) : MockState × CopyTradeResult :=
  let estimated_tokens := mockEstimatedTokens swap trade_sol
  let current_tokens := pyGetD st.mock_token_positions swap.token_mint 0
  let entry_time' :=
    if (pyGet? st.mock_position_entry_time swap.token_mint).isNone then
      pySet st.mock_position_entry_time swap.token_mint now
    else st.mock_position_entry_time
  let entry_sol' :=
    if (pyGet? st.mock_position_entry_time swap.token_mint).isNone then
      pySet st.mock_position_entry_sol swap.token_mint trade_sol
    else
      pySet st.mock_position_entry_sol swap.token_mint
        (pyGetD st.mock_position_entry_sol swap.token_mint 0 + trade_sol)
  let balance' := st.mock_balance - trade_sol
  let record : TradeRecord :=
    ⟨"buy", swap.token_mint.take 8, swap.token_mint, trade_sol,
      estimated_tokens, none, none, balance', now⟩
  (⟨balance', st.mock_starting_balance,
      pySet st.mock_token_positions swap.token_mint (current_tokens + estimated_tokens),
      entry_time', entry_sol', st.mock_trades_history ++ [record]⟩,
    ⟨true, some ("MOCK_BUY_" ++ swap.signature.take 8), none, 0, true⟩)

/-- Embedding of `_simulate_mock_sell`: credit the extrapolated SOL, zero the token
position, drop the entry-tracking entries, and append a history record. -/
def simulateMockSell (st : MockState) (swap : ParsedSwap) (token_balance : Int)
    (now : ℚ) : MockState × CopyTradeResult :=
  let sol_received : ℚ :=
    if swap.token_amount > 0 then
      (token_balance : ℚ) / (swap.token_amount : ℚ) * swap.sol_value
    else (token_balance : ℚ) / 1000000
  let entry_sol := pyGetD st.mock_position_entry_sol swap.token_mint 0
  let balance' := st.mock_balance + sol_received
  let record : TradeRecord :=
    ⟨"sell", swap.token_mint.take 8, swap.token_mint, sol_received,
      token_balance, some entry_sol, some (sol_received - entry_sol), balance', now⟩
  (⟨balance', st.mock_starting_balance,
      pySet st.mock_token_positions swap.token_mint 0,
      pyDel st.mock_position_entry_time swap.token_mint,
      pyDel st.mock_position_entry_sol swap.token_mint,
      st.mock_trades_history ++ [record]⟩,
    ⟨true, some ("MOCK_SELL_" ++ swap.signature.take 8), none, 0, true⟩)

/-- The sell-path branch of `_execute_copy` taken when the trader sold a
token we do not hold (token balance 0): record the sell cooldown for the
mint and return a failed result. -/
def executeCopySellNoTokens (trader_sold_cooldown : List (String × ℚ))
    (token_mint : String) (now : ℚ) : List (String × ℚ) × CopyTradeResult :=
  (pySet trader_sold_cooldown token_mint now,
    ⟨false, none, some "no_tokens_to_sell", 0, false⟩)

/-! ## Persisted simulation state (`_save_mock_state` / `_load_mock_state`) -/

/-- Python `xs[-n:]`: the last `n` elements. -/
def lastN {α : Type} (n : ℕ) (xs : List α) : List α := xs.drop (xs.length - n)

/-- The JSON document written by `_save_mock_state`. -/
structure SavedMockState where
  balance : ℚ
  starting_balance : ℚ
  positions : List (String × Int)
  entry_times : List (String × ℚ)
  entry_sol : List (String × ℚ)
  trades_history : List TradeRecord
  last_updated : ℚ
  pnl : ℚ
deriving DecidableEq, Repr

/-- Embedding of `_save_mock_state`: serialise the state, keeping only the last 100
history records. -/
def saveMockState (st : MockState) (now : ℚ) : SavedMockState :=
  ⟨st.mock_balance, st.mock_starting_balance, st.mock_token_positions,
    st.mock_position_entry_time, st.mock_position_entry_sol,
    lastN 100 st.mock_trades_history, now,
    st.mock_balance - st.mock_starting_balance⟩

/-- Embedding of `_load_mock_state`: when the file exists, each field defaults to the
in-memory value only if its key is absent (a saved document always carries
every key); a missing file leaves the state untouched. -/
def loadMockState (file : Option SavedMockState) (st : MockState) : MockState :=
  match file with
  | none => st
  | some doc =>
      ⟨doc.balance, doc.starting_balance, doc.positions, doc.entry_times,
        doc.entry_sol, doc.trades_history⟩

/-! ## `wallet_monitor.py` — the Wallet Poller -/

/-- Embedding of `_poll_wallet` restricted to one wallet: walk the fetched signature
list; an already-seen signature is skipped outright; a new one is marked
seen immediately (before the transaction body is even fetched), then the
body is fetched and, when present and successful, the handler is invoked.
Returns the new seen set together with the signatures for which the handler
ran, in processing order. -/
def pollWallet (fetchTx : String → Option RawTx) :
    List String → List String → List String × List String
  | seen, [] => (seen, [])
  | seen, sig :: rest =>
      if sig ∈ seen then pollWallet fetchTx seen rest
      else
        match fetchTx sig with
        | none => pollWallet fetchTx (sig :: seen) rest
        | some tx =>
            if tx.meta.err = none then
              ((pollWallet fetchTx (sig :: seen) rest).1,
                sig :: (pollWallet fetchTx (sig :: seen) rest).2)
            else pollWallet fetchTx (sig :: seen) rest

/-! ## Predicates and concrete inputs used by the theorems -/

/-- No net movement in the all-accounts token balance dictionaries used by
the pump.fun path. -/
def noTokenMovementAll (tx : RawTx) : Prop :=
  ∀ m, pyGetD (buildAllBalances tx.meta.postTokenBalances) m 0 =
    pyGetD (buildAllBalances tx.meta.preTokenBalances) m 0

/-- No net movement in the wallet-owned token balance dictionaries used by
the generic balance-delta path. -/
def noTokenMovementOwned (tx : RawTx) (wallet : String) : Prop :=
  ∀ m, pyGetD (buildOwnedBalances wallet tx.meta.postTokenBalances) m 0 =
    pyGetD (buildOwnedBalances wallet tx.meta.preTokenBalances) m 0

/-- A successful transaction of wallet `WALLETX` in which two distinct
non-native tokens (`AAA`, `BBB`) both gain balance while the wallet's SOL
balance drops by 1 SOL; no venue program is referenced, so only the generic
balance-delta path applies. -/
def txTwoTokens : RawTx :=
  ⟨⟨["WALLETX"]⟩,
    ⟨none, [2000000000], [1000000000],
      [⟨some "WALLETX", some "AAA", 0⟩, ⟨some "WALLETX", some "BBB", 0⟩],
      [⟨some "WALLETX", some "AAA", 5⟩, ⟨some "WALLETX", some "BBB", 7⟩],
      [], []⟩,
    some ["sig1"]⟩

/-- A transaction with a failed status (`meta.err` non-null). -/
def txFailed : RawTx :=
  ⟨⟨["A"]⟩, ⟨some "InstructionError", [5], [5], [], [], [], []⟩, some ["sigF"]⟩

/-- A successful transaction with no token balance entries at all. -/
def txNoTokens : RawTx :=
  ⟨⟨["A"]⟩, ⟨none, [5], [5], [], [], [], []⟩, some ["sigN"]⟩

/-- An open position in token `X` with 2 SOL committed. -/
def posX : Position := ⟨"X", none, 2, 100, 0, "sigX", "walletW", 2, none, 2⟩

/-- A position dict holding exactly the `X` position. -/
def positionsOne : Positions := [("X", posX)]

/-- A detected 1-SOL buy of token `X` by the tracked wallet. -/
def swapBuyX : ParsedSwap :=
  ⟨SwapType.buy, "X", none, 1000000000, 50, "pump.fun", "sigB", "walletW"⟩

/-- A copy-trader configuration with a single position slot. -/
def cfgOneSlot : CopyConfig := ⟨1, 1 / 100, 5, true, 1 / 10, false, 1 / 100, 2 / 100⟩

/-- Exit thresholds: take profit at +100%, abandon below 0.005 SOL. -/
def cfgExitW : ExitConfig := ⟨3, 100, -95, 0, 0, 1 / 200⟩

/-- A position that is simultaneously below the abandon threshold
(0.004 < 0.005) and above the take-profit threshold (+300% ≥ +100%). -/
def posRugged : Position :=
  ⟨"X", none, 1 / 1000, 100, 0, "sigX", "walletW", 1 / 250, none, 1 / 250⟩

/-- A position dict holding exactly the rugged position. -/
def positionsRugged : Positions := [("X", posRugged)]

/-- An external sell outcome (never consulted on the abandon branch). -/
def erW : SellResult := ⟨false, none, 0, ExitReason.manual, none⟩

/-- A detected 1-SOL buy of token `M`. -/
def swapBuyM : ParsedSwap :=
  ⟨SwapType.buy, "M", none, 1000000000, 5, "pump.fun", "sigM", "walletW"⟩

/-- A signal swap of 0.2 SOL for 2,000,000 token base units of `M` (the
spec's worked simulation example). -/
def swapSignalM : ParsedSwap :=
  ⟨SwapType.buy, "M", none, 200000000, 2000000, "pump.fun", "sigS", "walletW"⟩

/-- A mock state with an open simulated position in `M`: 100 tokens held,
entered at clock 5 for 2 SOL. -/
def stOpenM : MockState := ⟨10, 10, [("M", 100)], [("M", 5)], [("M", 2)], []⟩

/-- A transaction-body fetcher that always fails (the poller continues and
the signature stays marked seen). -/
def fetchNone : String → Option RawTx := fun _ => none

/-- A position with zero entry SOL. -/
def posZeroEntry : Position := ⟨"Z", none, 0, 0, 0, "sigZ", "walletW", 5, none, 5⟩

/-- A minimal trade-history record. -/
def rec0 : TradeRecord := ⟨"buy", "t", "mint0", 0, 0, none, none, 0, 0⟩

/-- A simulation state whose trade history holds 101 records. -/
def st101 : MockState := ⟨1, 1, [], [], [], List.replicate 101 rec0⟩

/-! ## Helper lemmas -/

theorem pyGet?_pySet_self {α β : Type} [DecidableEq α] (d : List (α × β)) (k : α) (v : β) :
    pyGet? (pySet d k v) k = some v := by
  induction d with
  | nil => simp [pySet, pyGet?]
  | cons hd tl ih =>
      rcases hd with ⟨a, b⟩
      by_cases h : a = k <;> simp [pySet, pyGet?, h, ih]

theorem pyGetD_pySet_self {α β : Type} [DecidableEq α] (d : List (α × β)) (k : α)
    (v dflt : β) : pyGetD (pySet d k v) k dflt = v := by
  simp [pyGetD, pyGet?_pySet_self]

theorem pySet_length_le {α β : Type} [DecidableEq α] (d : List (α × β)) (k : α) (v : β) :
    (pySet d k v).length ≤ d.length + 1 := by
  induction d with
  | nil => simp [pySet]
  | cons hd tl ih =>
      rcases hd with ⟨a, b⟩
      by_cases h : a = k <;> simp [pySet, h]
      omega

theorem pyDel_length_le {α β : Type} [DecidableEq α] (d : List (α × β)) (k : α) :
    (pyDel d k).length ≤ d.length := by
  induction d with
  | nil => simp [pyDel]
  | cons hd tl ih =>
      rcases hd with ⟨a, b⟩
      by_cases h : a = k <;> simp [pyDel, h]
      omega

theorem findChangedMint_none (pre post : List (Option String × Int))
    (h : ∀ m, pyGetD post m 0 = pyGetD pre m 0) :
    ∀ mints, findChangedMint pre post mints = none := by
  intro mints
  induction mints with
  | nil => rfl
  | cons m rest ih =>
      unfold findChangedMint
      split
      · exact ih
      · simp only [h m, sub_self, ne_eq, not_true_eq_false, reduceIte]
        exact ih

theorem parsePumpFun_noMove (mv : ℚ) (tx : RawTx) (w : String) (keys : List String)
    (h : noTokenMovementAll tx) : parsePumpFun mv tx w keys = .ok none := by
  unfold parsePumpFun
  split
  · rw [findChangedMint_none _ _ h]
  · rfl

theorem parseFromBalanceChanges_noMove (mv : ℚ) (tx : RawTx) (w : String) (dex : String)
    (h : noTokenMovementOwned tx w) :
    parseFromBalanceChanges mv tx w dex = .ok none ∨
      parseFromBalanceChanges mv tx w dex = .error () := by
  unfold parseFromBalanceChanges
  cases hsc : fallbackSolChange tx w with
  | error e => right; rfl
  | ok s => left; rw [findChangedMint_none _ _ h]

theorem parseJupiter_noMove (mv : ℚ) (tx : RawTx) (w : String) (keys : List String)
    (h : noTokenMovementOwned tx w) :
    parseJupiter mv tx w keys = .ok none ∨ parseJupiter mv tx w keys = .error () := by
  unfold parseJupiter
  split
  · exact parseFromBalanceChanges_noMove mv tx w "jupiter" h
  · left; rfl

theorem parseRaydium_noMove (mv : ℚ) (tx : RawTx) (w : String) (keys : List String)
    (h : noTokenMovementOwned tx w) :
    parseRaydium mv tx w keys = .ok none ∨ parseRaydium mv tx w keys = .error () := by
  unfold parseRaydium
  split
  · exact parseFromBalanceChanges_noMove mv tx w "raydium" h
  · left; rfl

theorem parsePumpFun_not_mem (mv : ℚ) (tx : RawTx) (w : String) (keys : List String)
    (h : PUMP_FUN_PROGRAM ∉ keys) : parsePumpFun mv tx w keys = .ok none := by
  unfold parsePumpFun
  rw [if_neg h]

theorem parseJupiter_not_mem (mv : ℚ) (tx : RawTx) (w : String) (keys : List String)
    (h : JUPITER_V6_PROGRAM ∉ keys) : parseJupiter mv tx w keys = .ok none := by
  unfold parseJupiter
  rw [if_neg h]

theorem parseRaydium_not_mem (mv : ℚ) (tx : RawTx) (w : String) (keys : List String)
    (h1 : RAYDIUM_AMM_PROGRAM ∉ keys) (h2 : RAYDIUM_CLMM_PROGRAM ∉ keys) :
    parseRaydium mv tx w keys = .ok none := by
  unfold parseRaydium
  rw [if_neg]
  rintro (h | h)
  · exact h1 h
  · exact h2 h

theorem pollWallet_seen_mono (fetchTx : String → Option RawTx) (sigs : List String) :
    ∀ seen s, s ∈ seen → s ∈ (pollWallet fetchTx seen sigs).1 := by
  induction sigs with
  | nil => intro seen s hs; simpa [pollWallet] using hs
  | cons a rest ih =>
      intro seen s hs
      unfold pollWallet
      split
      · exact ih seen s hs
      · cases hf : fetchTx a with
        | none => exact ih (a :: seen) s (List.mem_cons_of_mem a hs)
        | some tx =>
            dsimp only
            have h1 := ih (a :: seen) s (List.mem_cons_of_mem a hs)
            split <;> exact h1

theorem pollWallet_marks (fetchTx : String → Option RawTx) (sigs : List String) :
    ∀ seen s, s ∈ sigs → s ∈ (pollWallet fetchTx seen sigs).1 := by
  induction sigs with
  | nil => intro seen s hs; cases hs
  | cons a rest ih =>
      intro seen s hs
      rcases List.mem_cons.mp hs with h | h
      · subst h
        unfold pollWallet
        split
        · exact pollWallet_seen_mono fetchTx rest seen s (by assumption)
        · cases hf : fetchTx s with
          | none =>
              exact pollWallet_seen_mono fetchTx rest (s :: seen) s (List.mem_cons_self s seen)
          | some tx =>
              dsimp only
              have h1 := pollWallet_seen_mono fetchTx rest (s :: seen) s
                (List.mem_cons_self s seen)
              split <;> exact h1
      · unfold pollWallet
        split
        · exact ih seen s h
        · cases hf : fetchTx a with
          | none => exact ih (a :: seen) s h
          | some tx =>
              dsimp only
              have h1 := ih (a :: seen) s h
              split <;> exact h1

theorem pollWallet_events_fresh (fetchTx : String → Option RawTx) (sigs : List String) :
    ∀ seen s, s ∈ (pollWallet fetchTx seen sigs).2 → s ∉ seen := by
  induction sigs with
  | nil => intro seen s hs; simp [pollWallet] at hs
  | cons a rest ih =>
      intro seen s hs
      rw [pollWallet] at hs
      by_cases hmem : a ∈ seen
      · rw [if_pos hmem] at hs
        exact ih seen s hs
      · rw [if_neg hmem] at hs
        cases hf : fetchTx a with
        | none =>
            rw [hf] at hs
            intro hcontra
            exact ih (a :: seen) s hs (List.mem_cons_of_mem a hcontra)
        | some tx =>
            rw [hf] at hs
            dsimp only at hs
            split at hs
            · dsimp only at hs
              rcases List.mem_cons.mp hs with h | h
              · subst h; exact hmem
              · intro hcontra
                exact ih (a :: seen) s h (List.mem_cons_of_mem a hcontra)
            · intro hcontra
              exact ih (a :: seen) s hs (List.mem_cons_of_mem a hcontra)

theorem pollWallet_no_new_events (fetchTx : String → Option RawTx) (sigs : List String) :
    ∀ seen, (∀ s ∈ sigs, s ∈ seen) → (pollWallet fetchTx seen sigs).2 = [] := by
  induction sigs with
  | nil => intro seen _; rfl
  | cons a rest ih =>
      intro seen h
      rw [pollWallet, if_pos (h a (List.mem_cons_self a rest))]
      exact ih seen (fun s hs => h s (List.mem_cons_of_mem a hs))

/-! ## Claim theorems -/

/-- C10: `Position.pnl_percent` is total — it returns 0 when the entry
amount is zero instead of dividing by zero, and
`((currentValue − entry) / entry) × 100` for every non-zero entry. -/
theorem pnl_percent_total (p : Position) :
    (p.entry_sol = 0 → p.pnl_percent = 0) ∧
    (p.entry_sol ≠ 0 →
      p.pnl_percent = (p.current_value_sol - p.entry_sol) / p.entry_sol * 100) := by
  constructor <;> intro h <;> simp [Position.pnl_percent, h]

/-- Witness for C10 at a concrete zero-entry position. -/
theorem pnl_percent_total_witness :
    posZeroEntry.entry_sol = 0 ∧ posZeroEntry.pnl_percent = 0 :=
  ⟨rfl, (pnl_percent_total posZeroEntry).1 rfl⟩

/-- C3: exit evaluation puts abandon first — a position whose current value
is below the abandon threshold yields `ABANDONED` no matter what the other
triggers say, and selling with that reason removes the position with zero
proceeds and no external sell attempt. -/
theorem exit_priority_abandon (cfg : ExitConfig) (now : ℚ) (positions : Positions)
    (token_mint : String) (p : Position) (er : SellResult)
    (hp : pyGet? positions token_mint = some p)
    (hv : p.current_value_sol < cfg.rug_abandon_sol) :
    shouldExit cfg now p = some ExitReason.abandoned ∧
    sellPosition positions token_mint ExitReason.abandoned er =
      (pyDel positions token_mint,
        ⟨true, none, 0, ExitReason.abandoned, none⟩, false) := by
  constructor
  · unfold shouldExit
    rw [if_pos hv]
  · unfold sellPosition
    rw [hp, if_pos rfl]

/-- Witness for C3: a concrete position below the abandon threshold that
simultaneously satisfies the take-profit condition (+300% ≥ +100%). -/
theorem exit_priority_abandon_witness :
    cfgExitW.take_profit_pct > 0 ∧ posRugged.pnl_percent ≥ cfgExitW.take_profit_pct ∧
    shouldExit cfgExitW 7 posRugged = some ExitReason.abandoned ∧
    sellPosition positionsRugged "X" ExitReason.abandoned erW =
      (pyDel positionsRugged "X",
        ⟨true, none, 0, ExitReason.abandoned, none⟩, false) :=
  ⟨by norm_num [cfgExitW],
    by norm_num [cfgExitW, posRugged, Position.pnl_percent],
    (exit_priority_abandon cfgExitW 7 positionsRugged "X" posRugged erW rfl
      (by norm_num [cfgExitW, posRugged])).1,
    (exit_priority_abandon cfgExitW 7 positionsRugged "X" posRugged erW rfl
      (by norm_num [cfgExitW, posRugged])).2⟩

/-- C4: in proportional mode with positive available balance and a positive
cached trader balance, the size before the minimum bump is
`min(a × max(f, max(m∕a, 0.15)), a × 0.5, C)` with `f` the signal fraction;
and with `f = 5%`, `a = 1` and floor 15% the raw size before caps is 0.15. -/
theorem proportional_sizing_formula (a v T m C : ℚ) (ha : 0 < a) (hT : 0 < T) :
    proportionalTradeSol a v T m C =
      min (min (a * max (v / T) (max (m / a) (15 / 100))) (a * (1 / 2))) C ∧
    (v / T = 1 / 20 → a = 1 → m ≤ 15 / 100 →
      a * effectivePercentage v T m a = 15 / 100) := by
  constructor
  · unfold proportionalTradeSol effectivePercentage theirPercentage minPercentage
    rw [if_pos hT, if_pos ha]
  · intro hf hA hm
    subst hA
    unfold effectivePercentage theirPercentage minPercentage
    rw [if_pos hT, if_pos (show (1 : ℚ) > 0 by norm_num), hf, div_one,
      max_eq_right hm, max_eq_right (by norm_num : (1 : ℚ) / 20 ≤ 15 / 100), one_mul]

/-- Witness for C4 at the spec's worked example: signal 0.5 SOL of a
10-SOL trader balance, our available balance 1. -/
theorem proportional_sizing_formula_witness :
    proportionalTradeSol 1 (1 / 2) 10 (1 / 100) 2 =
      min (min (1 * max ((1 : ℚ) / 2 / 10) (max ((1 / 100) / 1) (15 / 100)))
        (1 * (1 / 2))) 2 ∧
    (1 : ℚ) * effectivePercentage (1 / 2) 10 (1 / 100) 1 = 15 / 100 :=
  ⟨(proportional_sizing_formula 1 (1 / 2) 10 (1 / 100) 2 (by norm_num) (by norm_num)).1,
    (proportional_sizing_formula 1 (1 / 2) 10 (1 / 100) 2 (by norm_num)
      (by norm_num)).2 (by norm_num) rfl (by norm_num)⟩

/-- C6: an already-seen signature never reaches the handler, every
presented signature is marked seen regardless of detection outcome, and a
second poll over the same signatures invokes the handler on nothing. -/
theorem poller_idempotent (fetchTx : String → Option RawTx) (seen sigs : List String) :
    (∀ s ∈ seen, s ∉ (pollWallet fetchTx seen sigs).2) ∧
    (∀ s ∈ sigs, s ∈ (pollWallet fetchTx seen sigs).1) ∧
    (pollWallet fetchTx (pollWallet fetchTx seen sigs).1 sigs).2 = [] := by
  refine ⟨?_, ?_, ?_⟩
  · intro s hs he
    exact pollWallet_events_fresh fetchTx sigs seen s he hs
  · exact fun s hs => pollWallet_marks fetchTx sigs seen s hs
  · exact pollWallet_no_new_events fetchTx sigs _
      (fun s hs => pollWallet_marks fetchTx sigs seen s hs)

/-- Witness for C6: a concrete double poll produces no handler calls. -/
theorem poller_idempotent_witness :
    (pollWallet fetchNone (pollWallet fetchNone ["a"] ["a", "b"]).1 ["a", "b"]).2 = [] :=
  (poller_idempotent fetchNone ["a"] ["a", "b"]).2.2

/-- C8: the detector returns `none` rather than raising — on any
transaction with a failed status, and on any transaction with no net token
movement (every mint's delta zero in both the all-accounts and the
wallet-owned balance dictionaries); the embedding is total, so malformed
fields default rather than escape. -/
theorem detector_fails_soft (mv : ℚ) (tx : RawTx) (w : String) :
    (tx.meta.err ≠ none → parseTransaction mv tx w = none) ∧
    (noTokenMovementAll tx → noTokenMovementOwned tx w →
      parseTransaction mv tx w = none) := by
  constructor
  · intro h
    unfold parseTransaction parseTransactionExc
    rw [if_pos h]
  · intro hall howned
    unfold parseTransaction parseTransactionExc
    by_cases herr : tx.meta.err ≠ none
    · rw [if_pos herr]
    · rw [if_neg herr, parsePumpFun_noMove mv tx w _ hall]
      rcases parseJupiter_noMove mv tx w (getAccountKeys tx.message tx.meta) howned with
        h2 | h2 <;> rw [h2]
      rcases parseRaydium_noMove mv tx w (getAccountKeys tx.message tx.meta) howned with
        h3 | h3 <;> rw [h3]
      rcases parseFromBalanceChanges_noMove mv tx w "unknown" howned with
        h4 | h4 <;> rw [h4]

/-- Witness for C8: a concrete failed transaction and a concrete
no-movement transaction both parse to `none`. -/
theorem detector_fails_soft_witness :
    parseTransaction (1 / 100) txFailed "A" = none ∧
    parseTransaction (1 / 100) txNoTokens "A" = none :=
  ⟨(detector_fails_soft (1 / 100) txFailed "A").1 (by decide),
    (detector_fails_soft (1 / 100) txNoTokens "A").2 (fun m => rfl) (fun m => rfl)⟩

/-- C9 (amended): reloading a saved simulation state reproduces the
balances, the position set and the entry-tracking dicts exactly, and the
trade history truncated to its last 100 records — the full history only
when it had at most 100 records. -/
theorem save_load_roundtrip (st d : MockState) (now : ℚ) :
    (loadMockState (some (saveMockState st now)) d).mock_balance = st.mock_balance ∧
    (loadMockState (some (saveMockState st now)) d).mock_starting_balance =
      st.mock_starting_balance ∧
    (loadMockState (some (saveMockState st now)) d).mock_token_positions =
      st.mock_token_positions ∧
    (loadMockState (some (saveMockState st now)) d).mock_position_entry_time =
      st.mock_position_entry_time ∧
    (loadMockState (some (saveMockState st now)) d).mock_position_entry_sol =
      st.mock_position_entry_sol ∧
    (loadMockState (some (saveMockState st now)) d).mock_trades_history =
      lastN 100 st.mock_trades_history ∧
    (st.mock_trades_history.length ≤ 100 →
      (loadMockState (some (saveMockState st now)) d).mock_trades_history =
        st.mock_trades_history) := by
  refine ⟨rfl, rfl, rfl, rfl, rfl, rfl, ?_⟩
  intro h
  show lastN 100 st.mock_trades_history = st.mock_trades_history
  unfold lastN
  rw [Nat.sub_eq_zero_of_le h, List.drop_zero]

/-- Witness for C9 at a concrete state with a short history. -/
theorem save_load_roundtrip_witness :
    stOpenM.mock_trades_history.length ≤ 100 ∧
    (loadMockState (some (saveMockState stOpenM 3)) stOpenM).mock_trades_history =
      stOpenM.mock_trades_history :=
  ⟨by decide, (save_load_roundtrip stOpenM stOpenM 3).2.2.2.2.2.2 (by decide)⟩

/-- Counterexample for C9 as stated: a state with 101 history records does
not survive the save/load round trip — the saved document keeps only the
last 100. -/
theorem save_load_truncates_history :
    (loadMockState (some (saveMockState st101 0)) st101).mock_trades_history ≠
      st101.mock_trades_history := by
  intro h
  have hl := congrArg List.length h
  simp [loadMockState, saveMockState, st101, lastN] at hl

theorem parseFromBalanceChanges_buy (mv : ℚ) (tx : RawTx) (w : String) (dex m : String)
    (d s : Int)
    (hfirst : findChangedMint (buildOwnedBalances w tx.meta.preTokenBalances)
      (buildOwnedBalances w tx.meta.postTokenBalances) (ownedAllMints tx w) =
        some (some m, d))
    (hm : m ≠ "") (hd : 0 < d)
    (hs : fallbackSolChange tx w = .ok s) (hneg : s < 0)
    (hmv : mv ≤ (s.natAbs : ℚ) / 1000000000) :
    parseFromBalanceChanges mv tx w dex =
      .ok (some ⟨SwapType.buy, m, none, |s|, |d|, dex,
        fallbackSignature tx.signatures, w⟩) := by
  unfold parseFromBalanceChanges
  rw [hs]
  dsimp only
  rw [hfirst]
  dsimp only
  rw [if_pos (show pyTruthy (some m) = true by simp [pyTruthy, hm]),
    if_pos ⟨hd, hneg⟩, if_neg (not_lt.mpr hmv)]
  rfl

theorem parseTransaction_generic_buy (mv : ℚ) (tx : RawTx) (w m : String) (d s : Int)
    (herr : tx.meta.err = none)
    (hp : PUMP_FUN_PROGRAM ∉ getAccountKeys tx.message tx.meta)
    (hj : JUPITER_V6_PROGRAM ∉ getAccountKeys tx.message tx.meta)
    (hra : RAYDIUM_AMM_PROGRAM ∉ getAccountKeys tx.message tx.meta)
    (hrc : RAYDIUM_CLMM_PROGRAM ∉ getAccountKeys tx.message tx.meta)
    (hfirst : findChangedMint (buildOwnedBalances w tx.meta.preTokenBalances)
      (buildOwnedBalances w tx.meta.postTokenBalances) (ownedAllMints tx w) =
        some (some m, d))
    (hm : m ≠ "") (hd : 0 < d)
    (hs : fallbackSolChange tx w = .ok s) (hneg : s < 0)
    (hmv : mv ≤ (s.natAbs : ℚ) / 1000000000) :
    parseTransaction mv tx w =
      some ⟨SwapType.buy, m, none, |s|, |d|, "unknown",
        fallbackSignature tx.signatures, w⟩ := by
  unfold parseTransaction parseTransactionExc
  rw [if_neg (by simp [herr]), parsePumpFun_not_mem mv tx w _ hp,
    parseJupiter_not_mem mv tx w _ hj, parseRaydium_not_mem mv tx w _ hra hrc,
    parseFromBalanceChanges_buy mv tx w "unknown" m d s hfirst hm hd hs hneg hmv]

/-- C1 (amended): the generic balance-delta path does not reject a
transaction in which two or more non-native tokens changed balance for the
wallet; it classifies by the first changed non-native token in mint
iteration order — whenever that token's delta is positive, the wallet's
SOL delta negative and the value at least the dust minimum, `detect`
returns a BUY for that token. -/
theorem generic_path_no_multi_reject (mv : ℚ) (tx : RawTx) (w m : String) (d s : Int)
    (_hmulti : 2 ≤ (changedOwnedMints tx w).length)
    (herr : tx.meta.err = none)
    (hp : PUMP_FUN_PROGRAM ∉ getAccountKeys tx.message tx.meta)
    (hj : JUPITER_V6_PROGRAM ∉ getAccountKeys tx.message tx.meta)
    (hra : RAYDIUM_AMM_PROGRAM ∉ getAccountKeys tx.message tx.meta)
    (hrc : RAYDIUM_CLMM_PROGRAM ∉ getAccountKeys tx.message tx.meta)
    (hfirst : findChangedMint (buildOwnedBalances w tx.meta.preTokenBalances)
      (buildOwnedBalances w tx.meta.postTokenBalances) (ownedAllMints tx w) =
        some (some m, d))
    (hm : m ≠ "") (hd : 0 < d)
    (hs : fallbackSolChange tx w = .ok s) (hneg : s < 0)
    (hmv : mv ≤ (s.natAbs : ℚ) / 1000000000) :
    parseTransaction mv tx w =
      some ⟨SwapType.buy, m, none, |s|, |d|, "unknown",
        fallbackSignature tx.signatures, w⟩ :=
  parseTransaction_generic_buy mv tx w m d s herr hp hj hra hrc hfirst hm hd hs
    hneg hmv

/-- Witness for C1's amended theorem at the concrete two-token transaction. -/
theorem generic_path_no_multi_reject_witness :
    (parseTransaction (1 / 100) txTwoTokens "WALLETX").isSome = true := by
  rw [generic_path_no_multi_reject (1 / 100) txTwoTokens "WALLETX" "AAA" 5
    (-1000000000) (by decide) rfl (by decide) (by decide) (by decide) (by decide)
    (by decide) (by decide) (by decide) (by rfl) (by decide) (by norm_num)]
  rfl

/-- Counterexample for C1 as stated: a transaction in which two distinct
non-native tokens both show a non-zero wallet delta is not rejected — the
detector still returns a swap. -/
theorem multi_token_not_rejected :
    2 ≤ (changedOwnedMints txTwoTokens "WALLETX").length ∧
    parseTransaction (1 / 100) txTwoTokens "WALLETX" ≠ none := by
  constructor
  · decide
  · have h := parseTransaction_generic_buy (1 / 100) txTwoTokens "WALLETX" "AAA" 5
      (-1000000000) rfl (by decide) (by decide) (by decide) (by decide) (by decide)
      (by decide) (by decide) (by rfl) (by decide) (by norm_num)
    rw [h]
    simp

/-- C2 (amended): open positions never exceed the configured maximum — the
gated registration in `_execute_copy` only ever produces a dict within the
limit and removals only shrink it; a BUY of a brand-new token at the limit
is rejected by `_should_copy`; a BUY adding to an already-held token passes
`_should_copy`'s slot filter regardless of the limit, but at the limit it
is still rejected by `_execute_copy`'s own max-positions gate. -/
theorem position_limit (cfg : CopyConfig) (positions : Positions)
    (cd : List (String × ℚ)) (recent : List String) (now : ℚ) (swap : ParsedSwap) :
    (∀ (entry_sol : ℚ) (token_amount : Int) (tnow : ℚ) (sig cw : String)
        (sym : Option String) (ps' : Positions),
      gatedAddPosition positions cfg.max_positions swap.token_mint entry_sol
          token_amount tnow sig cw sym = some ps' →
        ps'.length ≤ cfg.max_positions) ∧
    (positions.length ≤ cfg.max_positions →
      ∀ k, (pyDel positions k).length ≤ cfg.max_positions) ∧
    (swap.swap_type = SwapType.buy → pyGet? cd swap.token_mint = none →
      hasPosition positions swap.token_mint = false →
      canOpenPosition positions cfg.max_positions = false →
      (shouldCopy cfg cd (some positions) recent now swap).1 =
        some SkipReason.max_positions_reached) ∧
    (swap.swap_type = SwapType.buy → pyGet? cd swap.token_mint = none →
      hasPosition positions swap.token_mint = true →
      cfg.min_sol_per_trade ≤ swap.sol_value → swap.token_mint ∉ recent →
      (shouldCopy cfg cd (some positions) recent now swap).1 = none ∧
        (cfg.max_positions ≤ positions.length →
          executeCopyMaxPositionsGate (currentPositionsLive positions)
            cfg.max_positions = some "max_positions_reached")) := by
  refine ⟨?_, ?_, ?_, ?_⟩
  · intro e t tn sig cw sym ps' hadd
    unfold gatedAddPosition executeCopyMaxPositionsGate currentPositionsLive at hadd
    by_cases h : positions.length ≥ cfg.max_positions
    · rw [if_pos h] at hadd
      exact absurd hadd (by simp)
    · rw [if_neg h] at hadd
      dsimp only at hadd
      cases hadd
      have hle := pySet_length_le positions swap.token_mint
        ⟨swap.token_mint, sym, e, t, tn, sig, cw, e, none, e⟩
      unfold addPosition
      dsimp only
      omega
  · intro h k
    have := pyDel_length_le positions k
    omega
  · intro hb hcd hhas hcan
    simp [shouldCopy, ParsedSwap.is_buy, ParsedSwap.is_sell, hb, hcd, hhas, hcan]
  · intro hb hcd hhas hsol hrec
    have hsol' : ¬(swap.sol_value < cfg.min_sol_per_trade) := not_lt.mpr hsol
    constructor
    · simp [shouldCopy, ParsedSwap.is_buy, ParsedSwap.is_sell, hb, hcd, hhas, hsol',
        hrec]
    · intro hge
      unfold executeCopyMaxPositionsGate currentPositionsLive
      rw [if_pos hge]

/-- Witness for C2: at a one-slot limit already filled by `X`, a buy of the
new token `M` is skipped with the max-positions reason while a buy adding
to `X` passes `_should_copy`. -/
theorem position_limit_witness :
    (shouldCopy cfgOneSlot [] (some positionsOne) [] 0 swapBuyM).1 =
      some SkipReason.max_positions_reached ∧
    (shouldCopy cfgOneSlot [] (some positionsOne) [] 0 swapBuyX).1 = none :=
  ⟨(position_limit cfgOneSlot positionsOne [] [] 0 swapBuyM).2.2.1 rfl rfl
      (by decide) (by decide),
    ((position_limit cfgOneSlot positionsOne [] [] 0 swapBuyX).2.2.2 rfl rfl
      (by decide) (by norm_num [cfgOneSlot, swapBuyX, ParsedSwap.sol_value])
      (by simp)).1⟩

/-- Counterexample for C2 as stated: with the single slot taken by `X`, a
BUY adding to the open `X` position passes `_should_copy` but is rejected
by `_execute_copy`'s max-positions gate — it is not accepted. -/
theorem stacking_rejected_at_limit :
    hasPosition positionsOne "X" = true ∧
    (shouldCopy cfgOneSlot [] (some positionsOne) [] 0 swapBuyX).1 = none ∧
    executeCopyMaxPositionsGate (currentPositionsLive positionsOne)
      cfgOneSlot.max_positions = some "max_positions_reached" := by
  refine ⟨by decide, ?_, by decide⟩
  norm_num [shouldCopy, cfgOneSlot, swapBuyX, positionsOne, posX, ParsedSwap.is_buy,
    ParsedSwap.is_sell, ParsedSwap.sol_value, hasPosition, canOpenPosition, pyGet?]

/-- C5 (amended): in simulation mode a later accepted BUY of an
already-held token averages in — the entry SOL grows by the new trade, the
held tokens grow by the estimated receipt, and the entry-time dict (hence
the original entry time) is untouched.  (In live mode `add_position`
instead replaces the stored position, see the counterexample.) -/
theorem mock_buy_averages (st : MockState) (swap : ParsedSwap)
    (trade_sol now t0 : ℚ)
    (hopen : pyGet? st.mock_position_entry_time swap.token_mint = some t0) :
    pyGetD (simulateMockBuy st swap trade_sol now).1.mock_position_entry_sol
        swap.token_mint 0 =
      pyGetD st.mock_position_entry_sol swap.token_mint 0 + trade_sol ∧
    pyGetD (simulateMockBuy st swap trade_sol now).1.mock_token_positions
        swap.token_mint 0 =
      pyGetD st.mock_token_positions swap.token_mint 0 +
        mockEstimatedTokens swap trade_sol ∧
    (simulateMockBuy st swap trade_sol now).1.mock_position_entry_time =
      st.mock_position_entry_time := by
  refine ⟨?_, ?_, ?_⟩
  · simp [simulateMockBuy, hopen, pyGetD_pySet_self]
  · simp [simulateMockBuy, hopen, pyGetD_pySet_self]
  · simp [simulateMockBuy, hopen]

/-- Witness for C5's amended theorem: re-buying 0.1 SOL of the open `M`
position raises its entry from 2 to 2.1 and keeps the entry-time dict. -/
theorem mock_buy_averages_witness :
    pyGetD (simulateMockBuy stOpenM swapSignalM (1 / 10) 99).1.mock_position_entry_sol
        swapSignalM.token_mint 0 =
      pyGetD stOpenM.mock_position_entry_sol swapSignalM.token_mint 0 + 1 / 10 ∧
    (simulateMockBuy stOpenM swapSignalM (1 / 10) 99).1.mock_position_entry_time =
      stOpenM.mock_position_entry_time :=
  ⟨(mock_buy_averages stOpenM swapSignalM (1 / 10) 99 5 rfl).1,
    (mock_buy_averages stOpenM swapSignalM (1 / 10) 99 5 rfl).2.2⟩

/-- Counterexample for C5 as stated: the live-mode `add_position` applied
to a dict already holding `X` (entry 2 SOL) with a further 1-SOL buy
stores a fresh position whose entry is 1, not the accumulated 3 — the
existing position is replaced, not averaged. -/
theorem add_position_replaces :
    hasPosition positionsOne "X" = true ∧
    (pyGet? (addPosition positionsOne "X" 1 50 10 "sig2" "walletW" none).1 "X").map
      Position.entry_sol = some 1 ∧
    ¬((pyGet? (addPosition positionsOne "X" 1 50 10 "sig2" "walletW" none).1 "X").map
      Position.entry_sol = some (2 + 1)) := by
  refine ⟨by decide, ?_, ?_⟩
  · simp [addPosition, positionsOne, posX, pySet, pyGet?]
  · norm_num [addPosition, positionsOne, posX, pySet, pyGet?]

/-- C7: a SELL for a token we do not hold records a cooldown timestamp for
that mint; every BUY of the same mint while the 60-second window has not
elapsed is skipped with the cooldown reason, and a BUY after the window has
elapsed is never skipped for that reason. -/
theorem sell_cooldown (cfg : CopyConfig) (cd : List (String × ℚ))
    (positions? : Option Positions) (recent : List String) (mint : String)
    (t0 now : ℚ) (swap : ParsedSwap)
    (hb : swap.swap_type = SwapType.buy) (hm : swap.token_mint = mint) :
    pyGet? (executeCopySellNoTokens cd mint t0).1 mint = some t0 ∧
    (now - t0 < sellCooldownSeconds →
      (shouldCopy cfg (executeCopySellNoTokens cd mint t0).1 positions? recent now
        swap).1 = some SkipReason.sell_cooldown_active) ∧
    (sellCooldownSeconds ≤ now - t0 →
      (shouldCopy cfg (executeCopySellNoTokens cd mint t0).1 positions? recent now
        swap).1 ≠ some SkipReason.sell_cooldown_active) := by
  subst hm
  refine ⟨?_, ?_, ?_⟩
  · simp [executeCopySellNoTokens, pyGet?_pySet_self]
  · intro hlt
    simp [shouldCopy, executeCopySellNoTokens, ParsedSwap.is_buy, hb,
      pyGet?_pySet_self, hlt]
  · intro hge
    have hlt' : ¬(now - t0 < sellCooldownSeconds) := not_lt.mpr hge
    simp only [shouldCopy, executeCopySellNoTokens, ParsedSwap.is_buy, hb,
      pyGet?_pySet_self, hlt', if_false, decide_True, if_true]
    split_ifs <;> simp

/-- Witness for C7: cooldown recorded at time 0; a buy of `M` at time 30 is
skipped with the cooldown reason. -/
theorem sell_cooldown_witness :
    pyGet? (executeCopySellNoTokens [] "M" 0).1 "M" = some 0 ∧
    (shouldCopy cfgOneSlot (executeCopySellNoTokens [] "M" 0).1 none [] 30
      swapBuyM).1 = some SkipReason.sell_cooldown_active :=
  ⟨(sell_cooldown cfgOneSlot [] none [] "M" 0 30 swapBuyM rfl rfl).1,
    (sell_cooldown cfgOneSlot [] none [] "M" 0 30 swapBuyM rfl rfl).2.1
      (by norm_num [sellCooldownSeconds])⟩
